import Mathlib

/-!
# MaiksMixer.Audio: the `JackBridge` facade

A shallow embedding of `src/MaiksMixer.Audio/JackBridge.cpp` and `JackBridge.h`.

* The managed object is the record `JackBridge` (the three private fields of the
  header plus the subscriber lists of its two events).
* The native collaborator `emp::MaiksMixerBridge` is not part of the sources; it is a
  parameter `NativeClient`: one answer function per native method, each seeing the
  list of native calls issued before it, so that any deterministic fake can be
  expressed.  A native method either returns a value or throws, and what it throws
  is either a `std::exception` carrying a message or an exception of some other type
  (`Except NativeThrow _`).
* `World` pairs the managed object with the log of native calls (the fake's call
  counter is the length of that log) and the log of listener deliveries.
* `float` values are never computed on by the bridge; they are carried as their
  32-bit patterns.
-/

namespace MaiksMixer

/-! ## Data -/

/-- Bit pattern of an IEEE-754 single precision `float`. -/
abbrev Float32 := Nat

/-- Bit pattern of `0.75f`. -/
def Float32.threeQuarters : Float32 := 0x3F400000

/-- Bit pattern of `0.5f`. -/
def Float32.half : Float32 := 0x3F000000

/-- Native meter sample, `struct NativeMeterData` of `JackBridge.cpp`. -/
structure NativeMeterData where
  peak : Float32
  rms : Float32
  deriving DecidableEq, Repr

/-- Managed meter sample, `ref class MeterData` of `JackBridge.h`. -/
structure MeterData where
  Peak : Float32
  Rms : Float32
  deriving DecidableEq, Repr

/-- The snapshot returned by the native `GetServerStatus`. -/
structure NativeServerStatus where
  isRunning : Bool
  sampleRate : Int
  bufferSize : Int
  cpuLoad : Float32
  deriving DecidableEq, Repr

/-- One entry of the native `GetPorts` result. -/
structure NativePort where
  name : String
  type : String
  flags : Nat
  connections : List String
  deriving DecidableEq, Repr

/-- A boxed managed value (`Object^`) as stored in the dictionaries the bridge builds. -/
inductive Obj where
  | bool (b : Bool)
  | int (i : Int)
  | float (f : Float32)
  | string (s : String)
  | stringList (l : List String)
  deriving DecidableEq, Repr

/-- A `Dictionary<String^, Object^>`, in insertion order. -/
abbrev Dictionary := List (String × Obj)

/-- The record of one call issued to the native object. -/
inductive NativeCall where
  | construct
  | SetServerStatusCallback
  | SetMeterUpdateCallback
  | Initialize (clientName : String)
  | CreatePorts (numInputs numOutputs : Int)
  | Activate
  | Deactivate
  | SetChannelVolume (channel : Int) (volume : Float32)
  | SetChannelPan (channel : Int) (pan : Float32)
  | SetChannelGain (channel : Int) (gainDB : Float32)
  | SetChannelMute (channel : Int) (mute : Bool)
  | SetChannelSolo (channel : Int) (solo : Bool)
  | GetSampleRate
  | GetBufferSize
  | GetCpuLoad
  | IsServerRunning
  | GetServerStatus
  | ConnectPorts (sourcePort destPort : String)
  | DisconnectPorts (sourcePort destPort : String)
  | GetPortList (portType : String) (flags : Nat)
  | GetPorts
  | delete
  deriving DecidableEq, Repr

/-- What a native method can throw: an exception derived from `std::exception`, whose
`what()` is `what`, or an exception of any other type (`throw 42;`), which has no
message. -/
inductive NativeThrow where
  | stdException (what : String)
  | other
  deriving DecidableEq, Repr

/-- A fake `emp::MaiksMixerBridge`: every method answers from the list of native calls
issued before it (oldest first) and its arguments; `.error t` is a throw of `t`.  The
destructor run by `delete` does not throw (destructors are `noexcept`), so it has no
answer function. -/
structure NativeClient where
  construct : Except NativeThrow Unit
  SetServerStatusCallback : List NativeCall → Except NativeThrow Unit
  SetMeterUpdateCallback : List NativeCall → Except NativeThrow Unit
  Initialize : List NativeCall → String → Except NativeThrow Bool
  CreatePorts : List NativeCall → Int → Int → Except NativeThrow Bool
  Activate : List NativeCall → Except NativeThrow Bool
  Deactivate : List NativeCall → Except NativeThrow Bool
  SetChannelVolume : List NativeCall → Int → Float32 → Except NativeThrow Unit
  SetChannelPan : List NativeCall → Int → Float32 → Except NativeThrow Unit
  SetChannelGain : List NativeCall → Int → Float32 → Except NativeThrow Unit
  SetChannelMute : List NativeCall → Int → Bool → Except NativeThrow Unit
  SetChannelSolo : List NativeCall → Int → Bool → Except NativeThrow Unit
  GetSampleRate : List NativeCall → Except NativeThrow Int
  GetBufferSize : List NativeCall → Except NativeThrow Int
  GetCpuLoad : List NativeCall → Except NativeThrow Float32
  IsServerRunning : List NativeCall → Except NativeThrow Bool
  GetServerStatus : List NativeCall → Except NativeThrow NativeServerStatus
  ConnectPorts : List NativeCall → String → String → Except NativeThrow Bool
  DisconnectPorts : List NativeCall → String → String → Except NativeThrow Bool
  GetPortList : List NativeCall → String → Nat → Except NativeThrow (List String)
  GetPorts : List NativeCall → Except NativeThrow (List NativePort)

/-- What a caller of the bridge can be handed instead of a value.  The first three are
the managed exceptions the bridge throws itself.  `NullReference` stands for a call
through a null `_nativeImpl`, which the source leaves undefined.  `UncaughtNative` is a
native exception that no catch clause on its way matched: it reaches the caller as it
was thrown, untranslated. -/
inductive ManagedException where
  | ObjectDisposedException (objectName : String)
  | InvalidOperationException (message : String)
  | Exception (message : String)
  | NullReference
  | UncaughtNative
  deriving DecidableEq, Repr

/-- The `void* _nativeImpl` field: null, or the one native object the bridge owns. -/
inductive VoidPtr where
  | nullptr
  | native
  deriving DecidableEq, Repr

/-- The managed object: the private fields of `ref class JackBridge` and the
subscribers of its two events, in subscription order. -/
structure JackBridge where
  _nativeImpl : VoidPtr
  _isInitialized : Bool
  _isDisposed : Bool
  ServerStatusChanged : List Nat
  MeterUpdated : List Nat
  deriving DecidableEq, Repr

/-- One invocation of a subscribed listener. -/
inductive Delivery where
  | ServerStatusChanged (listener : Nat) (isRunning : Bool)
  | MeterUpdated (listener : Nat) (channel : Int) (data : MeterData)
  deriving DecidableEq, Repr

/-- The bridge together with what an observer can see of its collaborators: the
native calls issued so far and the listener invocations made so far (both oldest
first). -/
structure World where
  bridge : JackBridge
  calls : List NativeCall
  delivered : List Delivery
  deriving DecidableEq, Repr

/-- Record a native call. -/
def World.issue (w : World) (c : NativeCall) : World :=
  { w with calls := w.calls ++ [c] }

/-- What a native throw becomes on leaving a `try` block whose only handler is
`catch (const std::exception& ex) { throw gcnew System::Exception(gcnew String(ex.what())); }`:
a `std::exception` is caught and rethrown as `System::Exception` with its message; an
exception of another type does not match the handler and passes through. -/
def NativeThrow.caught : NativeThrow → ManagedException
  | .stdException what => .Exception what
  | .other => .UncaughtNative

/-- The outcome of a `try` block with that handler around one native call. -/
def rethrow {α : Type} : Except NativeThrow α → Except ManagedException α
  | .ok a => .ok a
  | .error t => .error t.caught

/-- The body shared by the `try` blocks: cast `_nativeImpl`, call one native method,
hand back what it returns; the handler is the `std::exception` one of `rethrow`. -/
def World.delegate {α : Type} (w : World) (c : NativeCall) (answer : Except NativeThrow α) :
    Except ManagedException α × World :=
  match w.bridge._nativeImpl with
  | .nullptr => (.error .NullReference, w)
  | .native => (rethrow answer, w.issue c)

/-- The text of the `InvalidOperationException` thrown by the initialisation guard. -/
def notInitializedMessage : String := "JACK client is not initialized"

/-! ## Construction and teardown -/

/-- The constructor `JackBridge::JackBridge()`.  The subscriber lists are those the
consumer attaches to the new object. -/
def JackBridge.ctor (nc : NativeClient) : Except ManagedException Unit × World :=
  let w0 : World :=
    { bridge := { _nativeImpl := .nullptr, _isInitialized := false, _isDisposed := false,
                  ServerStatusChanged := [], MeterUpdated := [] },
      calls := [], delivered := [] }
  match nc.construct with
  | .error t => (.error t.caught, w0.issue .construct)
  | .ok _ =>
    let w1 := { w0.issue .construct with bridge := { w0.bridge with _nativeImpl := .native } }
    match nc.SetServerStatusCallback w1.calls with
    | .error t => (.error t.caught, w1.issue .SetServerStatusCallback)
    | .ok _ =>
      let w2 := w1.issue .SetServerStatusCallback
      match nc.SetMeterUpdateCallback w2.calls with
      | .error t => (.error t.caught, w2.issue .SetMeterUpdateCallback)
      | .ok _ => (.ok (), w2.issue .SetMeterUpdateCallback)

/-- The teardown routine `JackBridge::!JackBridge()`.  Its handler is `catch (...)`, which
swallows a native throw of either kind. -/
def JackBridge.Finalize (nc : NativeClient) (w : World) : World :=
  if w.bridge._isDisposed then w
  else
    let w1 : World :=
      match w.bridge._nativeImpl with
      | .nullptr => w
      | .native =>
        if w.bridge._isInitialized then
          match nc.Deactivate w.calls with
          | .ok _ =>
            let w2 := (w.issue .Deactivate).issue .delete
            { w2 with bridge := { w2.bridge with _nativeImpl := .nullptr } }
          | .error _ => w.issue .Deactivate
        else
          let w2 := w.issue .delete
          { w2 with bridge := { w2.bridge with _nativeImpl := .nullptr } }
    { w1 with bridge := { w1.bridge with _isDisposed := true } }

/-- The explicit teardown `JackBridge::~JackBridge()`, which only calls `!JackBridge`. -/
def JackBridge.Dispose (nc : NativeClient) (w : World) : World :=
  JackBridge.Finalize nc w

/-! ## Public operations -/

/-- The operation `JackBridge::Initialize`. -/
def JackBridge.Initialize (nc : NativeClient) (w : World) (clientName : String) :
    Except ManagedException Bool × World :=
  if w.bridge._isDisposed then (.error (.ObjectDisposedException "JackBridge"), w)
  else if w.bridge._isInitialized then (.ok true, w)
  else
    match w.bridge._nativeImpl with
    | .nullptr => (.error .NullReference, w)
    | .native =>
      let w1 := w.issue (.Initialize clientName)
      match nc.Initialize w.calls clientName with
      | .ok result => (.ok result, { w1 with bridge := { w1.bridge with _isInitialized := result } })
      | .error t => (.error t.caught, w1)

/-- The operation `JackBridge::CreatePorts`. -/
def JackBridge.CreatePorts (nc : NativeClient) (w : World) (numInputs numOutputs : Int) :
    Except ManagedException Bool × World :=
  if w.bridge._isDisposed then (.error (.ObjectDisposedException "JackBridge"), w)
  else if !w.bridge._isInitialized then (.error (.InvalidOperationException notInitializedMessage), w)
  else w.delegate (.CreatePorts numInputs numOutputs) (nc.CreatePorts w.calls numInputs numOutputs)

/-- The operation `JackBridge::Activate`. -/
def JackBridge.Activate (nc : NativeClient) (w : World) : Except ManagedException Bool × World :=
  if w.bridge._isDisposed then (.error (.ObjectDisposedException "JackBridge"), w)
  else if !w.bridge._isInitialized then (.error (.InvalidOperationException notInitializedMessage), w)
  else w.delegate .Activate (nc.Activate w.calls)

/-- The operation `JackBridge::Deactivate`. -/
def JackBridge.Deactivate (nc : NativeClient) (w : World) : Except ManagedException Bool × World :=
  if w.bridge._isDisposed then (.error (.ObjectDisposedException "JackBridge"), w)
  else if !w.bridge._isInitialized then (.error (.InvalidOperationException notInitializedMessage), w)
  else w.delegate .Deactivate (nc.Deactivate w.calls)

/-- The operation `JackBridge::SetChannelVolume`. -/
def JackBridge.SetChannelVolume (nc : NativeClient) (w : World) (channel : Int) (volume : Float32) :
    Except ManagedException Unit × World :=
  if w.bridge._isDisposed then (.error (.ObjectDisposedException "JackBridge"), w)
  else if !w.bridge._isInitialized then (.error (.InvalidOperationException notInitializedMessage), w)
  else w.delegate (.SetChannelVolume channel volume) (nc.SetChannelVolume w.calls channel volume)

/-- The operation `JackBridge::SetChannelPan`. -/
def JackBridge.SetChannelPan (nc : NativeClient) (w : World) (channel : Int) (pan : Float32) :
    Except ManagedException Unit × World :=
  if w.bridge._isDisposed then (.error (.ObjectDisposedException "JackBridge"), w)
  else if !w.bridge._isInitialized then (.error (.InvalidOperationException notInitializedMessage), w)
  else w.delegate (.SetChannelPan channel pan) (nc.SetChannelPan w.calls channel pan)

/-- The operation `JackBridge::SetChannelGain`. -/
def JackBridge.SetChannelGain (nc : NativeClient) (w : World) (channel : Int) (gainDB : Float32) :
    Except ManagedException Unit × World :=
  if w.bridge._isDisposed then (.error (.ObjectDisposedException "JackBridge"), w)
  else if !w.bridge._isInitialized then (.error (.InvalidOperationException notInitializedMessage), w)
  else w.delegate (.SetChannelGain channel gainDB) (nc.SetChannelGain w.calls channel gainDB)

/-- The operation `JackBridge::SetChannelMute`. -/
def JackBridge.SetChannelMute (nc : NativeClient) (w : World) (channel : Int) (mute : Bool) :
    Except ManagedException Unit × World :=
  if w.bridge._isDisposed then (.error (.ObjectDisposedException "JackBridge"), w)
  else if !w.bridge._isInitialized then (.error (.InvalidOperationException notInitializedMessage), w)
  else w.delegate (.SetChannelMute channel mute) (nc.SetChannelMute w.calls channel mute)

/-- The operation `JackBridge::SetChannelSolo`. -/
def JackBridge.SetChannelSolo (nc : NativeClient) (w : World) (channel : Int) (solo : Bool) :
    Except ManagedException Unit × World :=
  if w.bridge._isDisposed then (.error (.ObjectDisposedException "JackBridge"), w)
  else if !w.bridge._isInitialized then (.error (.InvalidOperationException notInitializedMessage), w)
  else w.delegate (.SetChannelSolo channel solo) (nc.SetChannelSolo w.calls channel solo)

/-- The operation `JackBridge::GetSampleRate`. -/
def JackBridge.GetSampleRate (nc : NativeClient) (w : World) : Except ManagedException Int × World :=
  if w.bridge._isDisposed then (.error (.ObjectDisposedException "JackBridge"), w)
  else if !w.bridge._isInitialized then (.error (.InvalidOperationException notInitializedMessage), w)
  else w.delegate .GetSampleRate (nc.GetSampleRate w.calls)

/-- The operation `JackBridge::GetBufferSize`. -/
def JackBridge.GetBufferSize (nc : NativeClient) (w : World) : Except ManagedException Int × World :=
  if w.bridge._isDisposed then (.error (.ObjectDisposedException "JackBridge"), w)
  else if !w.bridge._isInitialized then (.error (.InvalidOperationException notInitializedMessage), w)
  else w.delegate .GetBufferSize (nc.GetBufferSize w.calls)

/-- The operation `JackBridge::GetCpuLoad`. -/
def JackBridge.GetCpuLoad (nc : NativeClient) (w : World) : Except ManagedException Float32 × World :=
  if w.bridge._isDisposed then (.error (.ObjectDisposedException "JackBridge"), w)
  else if !w.bridge._isInitialized then (.error (.InvalidOperationException notInitializedMessage), w)
  else w.delegate .GetCpuLoad (nc.GetCpuLoad w.calls)

/-- The operation `JackBridge::IsServerRunning`: only the disposed guard. -/
def JackBridge.IsServerRunning (nc : NativeClient) (w : World) : Except ManagedException Bool × World :=
  if w.bridge._isDisposed then (.error (.ObjectDisposedException "JackBridge"), w)
  else w.delegate .IsServerRunning (nc.IsServerRunning w.calls)

/-- The dictionary `GetServerStatus` builds from the native snapshot. -/
def statusDictionary (status : NativeServerStatus) : Dictionary :=
  [("IsRunning", .bool status.isRunning), ("SampleRate", .int status.sampleRate),
   ("BufferSize", .int status.bufferSize), ("CpuLoad", .float status.cpuLoad)]

/-- The operation `JackBridge::GetServerStatus`: only the disposed guard. -/
def JackBridge.GetServerStatus (nc : NativeClient) (w : World) :
    Except ManagedException Dictionary × World :=
  if w.bridge._isDisposed then (.error (.ObjectDisposedException "JackBridge"), w)
  else w.delegate .GetServerStatus ((nc.GetServerStatus w.calls).map statusDictionary)

/-- The operation `JackBridge::ConnectPorts`. -/
def JackBridge.ConnectPorts (nc : NativeClient) (w : World) (sourcePort destPort : String) :
    Except ManagedException Bool × World :=
  if w.bridge._isDisposed then (.error (.ObjectDisposedException "JackBridge"), w)
  else if !w.bridge._isInitialized then (.error (.InvalidOperationException notInitializedMessage), w)
  else w.delegate (.ConnectPorts sourcePort destPort) (nc.ConnectPorts w.calls sourcePort destPort)

/-- The operation `JackBridge::DisconnectPorts`. -/
def JackBridge.DisconnectPorts (nc : NativeClient) (w : World) (sourcePort destPort : String) :
    Except ManagedException Bool × World :=
  if w.bridge._isDisposed then (.error (.ObjectDisposedException "JackBridge"), w)
  else if !w.bridge._isInitialized then (.error (.InvalidOperationException notInitializedMessage), w)
  else w.delegate (.DisconnectPorts sourcePort destPort) (nc.DisconnectPorts w.calls sourcePort destPort)

/-- The operation `JackBridge::GetPortList`; the native vector is copied element by
element into the managed array. -/
def JackBridge.GetPortList (nc : NativeClient) (w : World) (portType : String) (flags : Nat) :
    Except ManagedException (List String) × World :=
  if w.bridge._isDisposed then (.error (.ObjectDisposedException "JackBridge"), w)
  else if !w.bridge._isInitialized then (.error (.InvalidOperationException notInitializedMessage), w)
  else w.delegate (.GetPortList portType flags) (nc.GetPortList w.calls portType flags)

/-- The cast `(int)nativePort.flags` of a 32-bit unsigned value. -/
def toInt32 (n : Nat) : Int :=
  if n % 2 ^ 32 < 2 ^ 31 then (n % 2 ^ 32 : Nat) else (n % 2 ^ 32 : Nat) - 2 ^ 32

/-- The dictionary `GetPorts` builds for one native port. -/
def portDictionary (nativePort : NativePort) : Dictionary :=
  [("Name", .string nativePort.name), ("Type", .string nativePort.type),
   ("Flags", .int (toInt32 nativePort.flags)),
   ("Connections", .stringList nativePort.connections),
   ("IsInput", .bool (nativePort.flags &&& 1 != 0)),
   ("IsOutput", .bool (nativePort.flags &&& 2 != 0)),
   ("IsPhysical", .bool (nativePort.flags &&& 4 != 0))]

/-- The operation `JackBridge::GetPorts`. -/
def JackBridge.GetPorts (nc : NativeClient) (w : World) :
    Except ManagedException (List Dictionary) × World :=
  if w.bridge._isDisposed then (.error (.ObjectDisposedException "JackBridge"), w)
  else if !w.bridge._isInitialized then (.error (.InvalidOperationException notInitializedMessage), w)
  else w.delegate .GetPorts ((nc.GetPorts w.calls).map (fun nativePorts => nativePorts.map portDictionary))

/-! ## Callback relay -/

/-- The handler `JackBridge::OnNativeServerStatusChanged`: raises `ServerStatusChanged`, which invokes
every subscriber in subscription order. -/
def JackBridge.OnNativeServerStatusChanged (w : World) (isRunning : Bool) : World :=
  { w with delivered :=
      w.delivered ++ w.bridge.ServerStatusChanged.map (fun l => Delivery.ServerStatusChanged l isRunning) }

/-- The handler `JackBridge::OnNativeMeterUpdated`: copies the sample into a fresh `MeterData` and
raises `MeterUpdated`. -/
def JackBridge.OnNativeMeterUpdated (w : World) (channel : Int) (data : NativeMeterData) : World :=
  let meterData : MeterData := { Peak := data.peak, Rms := data.rms }
  { w with delivered :=
      w.delivered ++ w.bridge.MeterUpdated.map (fun l => Delivery.MeterUpdated l channel meterData) }

/-- The static callback `JackBridge::ServerStatusChangedCallback`: the context token resolves to the
owning bridge, whose handler is called. -/
def JackBridge.ServerStatusChangedCallback (w : World) (isRunning : Bool) : World :=
  JackBridge.OnNativeServerStatusChanged w isRunning

/-- The static callback `JackBridge::MeterUpdateCallback`. -/
def JackBridge.MeterUpdateCallback (w : World) (channel : Int) (data : NativeMeterData) : World :=
  JackBridge.OnNativeMeterUpdated w channel data

/-! ## Call sequences -/

/-- A public operation of the control surface together with its arguments. -/
inductive Op where
  | Initialize (clientName : String)
  | CreatePorts (numInputs numOutputs : Int)
  | Activate
  | Deactivate
  | SetChannelVolume (channel : Int) (volume : Float32)
  | SetChannelPan (channel : Int) (pan : Float32)
  | SetChannelGain (channel : Int) (gainDB : Float32)
  | SetChannelMute (channel : Int) (mute : Bool)
  | SetChannelSolo (channel : Int) (solo : Bool)
  | GetSampleRate
  | GetBufferSize
  | GetCpuLoad
  | IsServerRunning
  | GetServerStatus
  | ConnectPorts (sourcePort destPort : String)
  | DisconnectPorts (sourcePort destPort : String)
  | GetPortList (portType : String) (flags : Nat)
  | GetPorts
  deriving DecidableEq, Repr

/-- What a public operation hands back to the consumer. -/
inductive Value where
  | void
  | bool (b : Bool)
  | int (i : Int)
  | float (f : Float32)
  | dictionary (d : Dictionary)
  | strings (a : List String)
  | dictionaries (l : List Dictionary)
  deriving DecidableEq, Repr

/-- Forget the static return type of an operation. -/
def boxed {α : Type} (f : α → Value) (r : Except ManagedException α × World) :
    Except ManagedException Value × World :=
  (r.1.map f, r.2)

/-- Run one public operation. -/
def JackBridge.exec (nc : NativeClient) (w : World) : Op → Except ManagedException Value × World
  | .Initialize clientName => boxed .bool (JackBridge.Initialize nc w clientName)
  | .CreatePorts numInputs numOutputs => boxed .bool (JackBridge.CreatePorts nc w numInputs numOutputs)
  | .Activate => boxed .bool (JackBridge.Activate nc w)
  | .Deactivate => boxed .bool (JackBridge.Deactivate nc w)
  | .SetChannelVolume channel volume => boxed (fun _ => .void) (JackBridge.SetChannelVolume nc w channel volume)
  | .SetChannelPan channel pan => boxed (fun _ => .void) (JackBridge.SetChannelPan nc w channel pan)
  | .SetChannelGain channel gainDB => boxed (fun _ => .void) (JackBridge.SetChannelGain nc w channel gainDB)
  | .SetChannelMute channel mute => boxed (fun _ => .void) (JackBridge.SetChannelMute nc w channel mute)
  | .SetChannelSolo channel solo => boxed (fun _ => .void) (JackBridge.SetChannelSolo nc w channel solo)
  | .GetSampleRate => boxed .int (JackBridge.GetSampleRate nc w)
  | .GetBufferSize => boxed .int (JackBridge.GetBufferSize nc w)
  | .GetCpuLoad => boxed .float (JackBridge.GetCpuLoad nc w)
  | .IsServerRunning => boxed .bool (JackBridge.IsServerRunning nc w)
  | .GetServerStatus => boxed .dictionary (JackBridge.GetServerStatus nc w)
  | .ConnectPorts sourcePort destPort => boxed .bool (JackBridge.ConnectPorts nc w sourcePort destPort)
  | .DisconnectPorts sourcePort destPort => boxed .bool (JackBridge.DisconnectPorts nc w sourcePort destPort)
  | .GetPortList portType flags => boxed .strings (JackBridge.GetPortList nc w portType flags)
  | .GetPorts => boxed .dictionaries (JackBridge.GetPorts nc w)

/-- Anything that can happen to a constructed bridge: a public operation, either
teardown entry point, a native callback, or a consumer subscribing to an event. -/
inductive Call where
  | op (o : Op)
  | Dispose
  | Finalize
  | ServerStatusChangedCallback (isRunning : Bool)
  | MeterUpdateCallback (channel : Int) (data : NativeMeterData)
  | subscribeServerStatusChanged (listener : Nat)
  | subscribeMeterUpdated (listener : Nat)
  deriving DecidableEq, Repr

/-- The world after one call (the value or exception handed back is dropped). -/
def JackBridge.step (nc : NativeClient) (w : World) : Call → World
  | .op o => (JackBridge.exec nc w o).2
  | .Dispose => JackBridge.Dispose nc w
  | .Finalize => JackBridge.Finalize nc w
  | .ServerStatusChangedCallback isRunning => JackBridge.ServerStatusChangedCallback w isRunning
  | .MeterUpdateCallback channel data => JackBridge.MeterUpdateCallback w channel data
  | .subscribeServerStatusChanged listener =>
    { w with bridge := { w.bridge with ServerStatusChanged := w.bridge.ServerStatusChanged ++ [listener] } }
  | .subscribeMeterUpdated listener =>
    { w with bridge := { w.bridge with MeterUpdated := w.bridge.MeterUpdated ++ [listener] } }

/-- The world after a sequence of calls. -/
def JackBridge.run (nc : NativeClient) (w : World) (cs : List Call) : World :=
  cs.foldl (JackBridge.step nc) w

/-- The lifecycle states of the specification. -/
inductive LifecycleState where
  | Uninitialized
  | Initialized
  | Disposed
  deriving DecidableEq, Repr

/-- The lifecycle state the two flags `_isDisposed` and `_isInitialized` encode. -/
def JackBridge.state (b : JackBridge) : LifecycleState :=
  if b._isDisposed then .Disposed
  else if b._isInitialized then .Initialized
  else .Uninitialized

/-! ## Fakes used as concrete inputs -/

/-- A fake native client on which every call succeeds: booleans are `true`, the
server reports 48 kHz, 256 frames, and there are no ports. -/
def NativeClient.healthy : NativeClient where
  construct := .ok ()
  SetServerStatusCallback := fun _ => .ok ()
  SetMeterUpdateCallback := fun _ => .ok ()
  Initialize := fun _ _ => .ok true
  CreatePorts := fun _ _ _ => .ok true
  Activate := fun _ => .ok true
  Deactivate := fun _ => .ok true
  SetChannelVolume := fun _ _ _ => .ok ()
  SetChannelPan := fun _ _ _ => .ok ()
  SetChannelGain := fun _ _ _ => .ok ()
  SetChannelMute := fun _ _ _ => .ok ()
  SetChannelSolo := fun _ _ _ => .ok ()
  GetSampleRate := fun _ => .ok 48000
  GetBufferSize := fun _ => .ok 256
  GetCpuLoad := fun _ => .ok 0
  IsServerRunning := fun _ => .ok true
  GetServerStatus := fun _ => .ok { isRunning := true, sampleRate := 48000, bufferSize := 256, cpuLoad := 0 }
  ConnectPorts := fun _ _ _ => .ok true
  DisconnectPorts := fun _ _ _ => .ok true
  GetPortList := fun _ _ _ => .ok []
  GetPorts := fun _ => .ok []

/-- A fake native client whose `Deactivate` throws. -/
def NativeClient.deactivateThrows : NativeClient :=
  { NativeClient.healthy with Deactivate := fun _ => .error (.stdException "deactivate failed") }

/-- A fake native client every method of which (after construction) throws. -/
def NativeClient.failing : NativeClient where
  construct := .ok ()
  SetServerStatusCallback := fun _ => .ok ()
  SetMeterUpdateCallback := fun _ => .ok ()
  Initialize := fun _ _ => .error (.stdException "boom")
  CreatePorts := fun _ _ _ => .error (.stdException "boom")
  Activate := fun _ => .error (.stdException "boom")
  Deactivate := fun _ => .error (.stdException "boom")
  SetChannelVolume := fun _ _ _ => .error (.stdException "boom")
  SetChannelPan := fun _ _ _ => .error (.stdException "boom")
  SetChannelGain := fun _ _ _ => .error (.stdException "boom")
  SetChannelMute := fun _ _ _ => .error (.stdException "boom")
  SetChannelSolo := fun _ _ _ => .error (.stdException "boom")
  GetSampleRate := fun _ => .error (.stdException "boom")
  GetBufferSize := fun _ => .error (.stdException "boom")
  GetCpuLoad := fun _ => .error (.stdException "boom")
  IsServerRunning := fun _ => .error (.stdException "boom")
  GetServerStatus := fun _ => .error (.stdException "boom")
  ConnectPorts := fun _ _ _ => .error (.stdException "boom")
  DisconnectPorts := fun _ _ _ => .error (.stdException "boom")
  GetPortList := fun _ _ _ => .error (.stdException "boom")
  GetPorts := fun _ => .error (.stdException "boom")

/-- The world right after a successful construction on the healthy fake. -/
def World.fresh : World := (JackBridge.ctor NativeClient.healthy).2

/-- The fresh world after a successful `Initialize("mixer1")`. -/
def World.ready : World := (JackBridge.Initialize NativeClient.healthy World.fresh "mixer1").2

/-- The ready world after a successful `CreatePorts(2, 2)`. -/
def World.withPorts : World := (JackBridge.CreatePorts NativeClient.healthy World.ready 2 2).2

/-- The fresh world after a consumer subscribed listener 1 to `ServerStatusChanged` and
listener 2 to `MeterUpdated`, and `Initialize("mixer1")` succeeded. -/
def World.subscribed : World :=
  JackBridge.run NativeClient.healthy World.fresh
    [.subscribeServerStatusChanged 1, .subscribeMeterUpdated 2, .op (.Initialize "mixer1")]

/-- A meter sample used as a concrete input: peak `0.75`, rms `0.5`. -/
def NativeMeterData.sample : NativeMeterData :=
  { peak := Float32.threeQuarters, rms := Float32.half }

/-! ## Vocabulary of the claims -/

/-- The native method an operation delegates to, with the arguments it passes on. -/
def Op.nativeCall : Op → NativeCall
  | .Initialize clientName => .Initialize clientName
  | .CreatePorts numInputs numOutputs => .CreatePorts numInputs numOutputs
  | .Activate => .Activate
  | .Deactivate => .Deactivate
  | .SetChannelVolume channel volume => .SetChannelVolume channel volume
  | .SetChannelPan channel pan => .SetChannelPan channel pan
  | .SetChannelGain channel gainDB => .SetChannelGain channel gainDB
  | .SetChannelMute channel mute => .SetChannelMute channel mute
  | .SetChannelSolo channel solo => .SetChannelSolo channel solo
  | .GetSampleRate => .GetSampleRate
  | .GetBufferSize => .GetBufferSize
  | .GetCpuLoad => .GetCpuLoad
  | .IsServerRunning => .IsServerRunning
  | .GetServerStatus => .GetServerStatus
  | .ConnectPorts sourcePort destPort => .ConnectPorts sourcePort destPort
  | .DisconnectPorts sourcePort destPort => .DisconnectPorts sourcePort destPort
  | .GetPortList portType flags => .GetPortList portType flags
  | .GetPorts => .GetPorts

/-- What a native answer throws, if it throws. -/
def thrownBy {α : Type} : Except NativeThrow α → Option NativeThrow
  | .ok _ => none
  | .error t => some t

/-- What the native method of an operation throws when it is called after the native
calls `calls`, if it throws. -/
def NativeClient.thrown (nc : NativeClient) (calls : List NativeCall) : Op → Option NativeThrow
  | .Initialize clientName => thrownBy (nc.Initialize calls clientName)
  | .CreatePorts numInputs numOutputs => thrownBy (nc.CreatePorts calls numInputs numOutputs)
  | .Activate => thrownBy (nc.Activate calls)
  | .Deactivate => thrownBy (nc.Deactivate calls)
  | .SetChannelVolume channel volume => thrownBy (nc.SetChannelVolume calls channel volume)
  | .SetChannelPan channel pan => thrownBy (nc.SetChannelPan calls channel pan)
  | .SetChannelGain channel gainDB => thrownBy (nc.SetChannelGain calls channel gainDB)
  | .SetChannelMute channel mute => thrownBy (nc.SetChannelMute calls channel mute)
  | .SetChannelSolo channel solo => thrownBy (nc.SetChannelSolo calls channel solo)
  | .GetSampleRate => thrownBy (nc.GetSampleRate calls)
  | .GetBufferSize => thrownBy (nc.GetBufferSize calls)
  | .GetCpuLoad => thrownBy (nc.GetCpuLoad calls)
  | .IsServerRunning => thrownBy (nc.IsServerRunning calls)
  | .GetServerStatus => thrownBy (nc.GetServerStatus calls)
  | .ConnectPorts sourcePort destPort => thrownBy (nc.ConnectPorts calls sourcePort destPort)
  | .DisconnectPorts sourcePort destPort =>
    thrownBy (nc.DisconnectPorts calls sourcePort destPort)
  | .GetPortList portType flags => thrownBy (nc.GetPortList calls portType flags)
  | .GetPorts => thrownBy (nc.GetPorts calls)

/-- The lifecycle guard of the specification: no operation on a disposed bridge; every
operation other than `Initialize`, `IsServerRunning` and `GetServerStatus` needs an
initialized one. -/
def Op.passesGuard (o : Op) (b : JackBridge) : Bool :=
  !b._isDisposed &&
    match o with
    | .Initialize _ => true
    | .IsServerRunning => true
    | .GetServerStatus => true
    | _ => b._isInitialized

/-- An operation that passes the guard delegates to the native object, save `Initialize`
on an already initialized bridge, which has nothing left to delegate. -/
def Op.delegates (o : Op) (b : JackBridge) : Bool :=
  o.passesGuard b &&
    match o with
    | .Initialize _ => !b._isInitialized
    | _ => true

/-- A fake native client whose graph rejects every connection and disconnection: both
calls return false, nothing throws. -/
def NativeClient.rejecting : NativeClient :=
  { NativeClient.healthy with
    ConnectPorts := fun _ _ _ => .ok false
    DisconnectPorts := fun _ _ _ => .ok false }

/-- The volume a recording fake holds for a channel after receiving `calls`: the value of
the last `SetChannelVolume` it received for that channel, if any. -/
def storedVolume (calls : List NativeCall) (channel : Int) : Option Float32 :=
  calls.foldl
    (fun held c =>
      match c with
      | .SetChannelVolume ch v => if ch = channel then some v else held
      | _ => held)
    none

/-- The pan a recording fake holds for a channel after receiving `calls`. -/
def storedPan (calls : List NativeCall) (channel : Int) : Option Float32 :=
  calls.foldl
    (fun held c =>
      match c with
      | .SetChannelPan ch v => if ch = channel then some v else held
      | _ => held)
    none

/-- The gain a recording fake holds for a channel after receiving `calls`. -/
def storedGain (calls : List NativeCall) (channel : Int) : Option Float32 :=
  calls.foldl
    (fun held c =>
      match c with
      | .SetChannelGain ch v => if ch = channel then some v else held
      | _ => held)
    none

/-- The mute state a recording fake holds for a channel after receiving `calls`. -/
def storedMute (calls : List NativeCall) (channel : Int) : Option Bool :=
  calls.foldl
    (fun held c =>
      match c with
      | .SetChannelMute ch v => if ch = channel then some v else held
      | _ => held)
    none

/-- The solo state a recording fake holds for a channel after receiving `calls`. -/
def storedSolo (calls : List NativeCall) (channel : Int) : Option Bool :=
  calls.foldl
    (fun held c =>
      match c with
      | .SetChannelSolo ch v => if ch = channel then some v else held
      | _ => held)
    none

/-- A fake native client whose `Initialize` and `CreatePorts` throw something that is not
a `std::exception`. -/
def NativeClient.throwsForeign : NativeClient :=
  { NativeClient.healthy with
    Initialize := fun _ _ => .error .other
    CreatePorts := fun _ _ _ => .error .other }

/-- A fake native client whose graph rejects every connection, and whose
`DisconnectPorts` throws. -/
def NativeClient.rejectsConnectThrowsDisconnect : NativeClient :=
  { NativeClient.healthy with
    ConnectPorts := fun _ _ _ => .ok false
    DisconnectPorts := fun _ _ _ => .error (.stdException "no such connection") }

/-- A fake native client whose `ConnectPorts` throws, and whose graph refuses every
disconnection. -/
def NativeClient.throwsConnectRejectsDisconnect : NativeClient :=
  { NativeClient.healthy with
    ConnectPorts := fun _ _ _ => .error (.stdException "graph locked")
    DisconnectPorts := fun _ _ _ => .ok false }

/-! ## Supporting lemmas -/

theorem exec_of_disposed (nc : NativeClient) (w : World) (o : Op)
    (h : w.bridge._isDisposed = true) :
    JackBridge.exec nc w o = (.error (.ObjectDisposedException "JackBridge"), w) := by
  cases o <;>
    simp [JackBridge.exec, boxed, Except.map, h, JackBridge.Initialize, JackBridge.CreatePorts,
      JackBridge.Activate, JackBridge.Deactivate, JackBridge.SetChannelVolume,
      JackBridge.SetChannelPan, JackBridge.SetChannelGain, JackBridge.SetChannelMute,
      JackBridge.SetChannelSolo, JackBridge.GetSampleRate, JackBridge.GetBufferSize,
      JackBridge.GetCpuLoad, JackBridge.IsServerRunning, JackBridge.GetServerStatus,
      JackBridge.ConnectPorts, JackBridge.DisconnectPorts, JackBridge.GetPortList,
      JackBridge.GetPorts]

theorem Finalize_of_disposed (nc : NativeClient) (w : World)
    (h : w.bridge._isDisposed = true) : JackBridge.Finalize nc w = w := by
  simp [JackBridge.Finalize, h]

theorem Finalize_isDisposed (nc : NativeClient) (w : World) :
    (JackBridge.Finalize nc w).bridge._isDisposed = true := by
  unfold JackBridge.Finalize
  by_cases h : w.bridge._isDisposed = true
  · simp [h]
  · simp [h]

/-- In a disposed world a call of any kind keeps the bridge disposed and issues no
native call. -/
theorem step_of_disposed (nc : NativeClient) (w : World) (c : Call)
    (h : w.bridge._isDisposed = true) :
    (JackBridge.step nc w c).bridge._isDisposed = true ∧ (JackBridge.step nc w c).calls = w.calls := by
  cases c with
  | op o => simp [JackBridge.step, exec_of_disposed nc w o h, h]
  | Dispose => simp [JackBridge.step, JackBridge.Dispose, Finalize_of_disposed nc w h, h]
  | Finalize => simp [JackBridge.step, Finalize_of_disposed nc w h, h]
  | ServerStatusChangedCallback b =>
    simp [JackBridge.step, JackBridge.ServerStatusChangedCallback,
      JackBridge.OnNativeServerStatusChanged, h]
  | MeterUpdateCallback ch d =>
    simp [JackBridge.step, JackBridge.MeterUpdateCallback, JackBridge.OnNativeMeterUpdated, h]
  | subscribeServerStatusChanged l => simp [JackBridge.step, h]
  | subscribeMeterUpdated l => simp [JackBridge.step, h]

theorem run_of_disposed (nc : NativeClient) (cs : List Call) (w : World)
    (h : w.bridge._isDisposed = true) :
    (JackBridge.run nc w cs).bridge._isDisposed = true ∧ (JackBridge.run nc w cs).calls = w.calls := by
  induction cs generalizing w with
  | nil => exact ⟨h, rfl⟩
  | cons c cs ih =>
    have hs := step_of_disposed nc w c h
    have := ih (JackBridge.step nc w c) hs.1
    simp only [JackBridge.run, List.foldl_cons] at this ⊢
    exact ⟨this.1, this.2.trans hs.2⟩

/-- A second teardown is a no-op. -/
theorem Finalize_idempotent (nc : NativeClient) (w : World) :
    JackBridge.Finalize nc (JackBridge.Finalize nc w) = JackBridge.Finalize nc w :=
  Finalize_of_disposed nc _ (Finalize_isDisposed nc w)

/-- Teardown invoked `n + 1` times does what one teardown does. -/
theorem Finalize_iterate (nc : NativeClient) (w : World) (n : Nat) :
    (JackBridge.Finalize nc)^[n + 1] w = JackBridge.Finalize nc w := by
  induction n with
  | zero => rfl
  | succ k ih => rw [Function.iterate_succ_apply', ih, Finalize_idempotent]

/-- Teardown of an initialized bridge whose native `Deactivate` returns: one
`Deactivate`, then the `delete`, and the pointer is cleared. -/
theorem Finalize_of_Deactivate_returns (nc : NativeClient) (w : World) (b : Bool)
    (hI : w.bridge._isInitialized = true) (hD : w.bridge._isDisposed = false)
    (hN : w.bridge._nativeImpl = .native) (hr : nc.Deactivate w.calls = .ok b) :
    JackBridge.Finalize nc w
      = { w with
          bridge := { w.bridge with _nativeImpl := .nullptr, _isDisposed := true },
          calls := w.calls ++ [.Deactivate, .delete] } := by
  simp [JackBridge.Finalize, hI, hD, hN, hr, World.issue]

/-- Teardown of an initialized bridge whose native `Deactivate` throws: the exception is
swallowed and the bridge is disposed, but the `delete` and the clearing of the pointer,
which follow `Deactivate` inside the same `try`, are skipped. -/
theorem Finalize_of_Deactivate_throws (nc : NativeClient) (w : World) (t : NativeThrow)
    (hI : w.bridge._isInitialized = true) (hD : w.bridge._isDisposed = false)
    (hN : w.bridge._nativeImpl = .native) (hr : nc.Deactivate w.calls = .error t) :
    JackBridge.Finalize nc w
      = { w with
          bridge := { w.bridge with _isDisposed := true },
          calls := w.calls ++ [.Deactivate] } := by
  simp [JackBridge.Finalize, hI, hD, hN, hr, World.issue]

theorem delegate_bridge {α : Type} (w : World) (c : NativeCall) (a : Except NativeThrow α) :
    (w.delegate c a).2.bridge = w.bridge ∧ (w.delegate c a).2.delivered = w.delivered := by
  unfold World.delegate
  cases w.bridge._nativeImpl <;> simp [World.issue]

/-- Every public operation other than `Initialize` leaves the managed object and the
delivery log as they are. -/
theorem exec_bridge (nc : NativeClient) (w : World) (o : Op) (h : ∀ n, o ≠ .Initialize n) :
    (JackBridge.exec nc w o).2.bridge = w.bridge
    ∧ (JackBridge.exec nc w o).2.delivered = w.delivered := by
  cases o <;>
    first
    | exact absurd rfl (h _)
    | (simp only [JackBridge.exec, boxed, JackBridge.CreatePorts, JackBridge.Activate,
        JackBridge.Deactivate, JackBridge.SetChannelVolume, JackBridge.SetChannelPan,
        JackBridge.SetChannelGain, JackBridge.SetChannelMute, JackBridge.SetChannelSolo,
        JackBridge.GetSampleRate, JackBridge.GetBufferSize, JackBridge.GetCpuLoad,
        JackBridge.IsServerRunning, JackBridge.GetServerStatus, JackBridge.ConnectPorts,
        JackBridge.DisconnectPorts, JackBridge.GetPortList, JackBridge.GetPorts]
       split_ifs <;> simp [delegate_bridge])

/-- Teardown keeps the subscriber lists and the delivery log. -/
theorem Finalize_listeners (nc : NativeClient) (w : World) :
    (JackBridge.Finalize nc w).bridge.ServerStatusChanged = w.bridge.ServerStatusChanged
    ∧ (JackBridge.Finalize nc w).bridge.MeterUpdated = w.bridge.MeterUpdated
    ∧ (JackBridge.Finalize nc w).delivered = w.delivered := by
  unfold JackBridge.Finalize
  by_cases hD : w.bridge._isDisposed = true
  · simp [hD]
  · cases hN : w.bridge._nativeImpl with
    | nullptr => simp [hD, hN]
    | native =>
      by_cases hI : w.bridge._isInitialized = true
      · cases hr : nc.Deactivate w.calls <;> simp [hD, hN, hI, hr, World.issue]
      · simp [hD, hN, hI, World.issue]

/-- What `Initialize` does to the lifecycle state: nothing, unless the bridge was
uninitialized and the native `Initialize` returned true. -/
theorem Initialize_state (nc : NativeClient) (w : World) (clientName : String) :
    (JackBridge.Initialize nc w clientName).2.bridge.state = w.bridge.state
    ∨ (w.bridge.state = .Uninitialized
        ∧ (JackBridge.Initialize nc w clientName).2.bridge.state = .Initialized
        ∧ nc.Initialize w.calls clientName = .ok true) := by
  unfold JackBridge.Initialize
  by_cases hD : w.bridge._isDisposed = true
  · simp [hD]
  · by_cases hI : w.bridge._isInitialized = true
    · simp [hD, hI]
    · cases hN : w.bridge._nativeImpl with
      | nullptr => simp [hD, hI, hN]
      | native =>
        cases hr : nc.Initialize w.calls clientName with
        | error what => simp [hD, hI, hN, hr, World.issue, JackBridge.state]
        | ok result =>
          cases result <;> simp [hD, hI, hN, hr, World.issue, JackBridge.state]

/-- What teardown does to the lifecycle state: the result is always `Disposed`. -/
theorem Finalize_state (nc : NativeClient) (w : World) :
    (JackBridge.Finalize nc w).bridge.state = .Disposed := by
  simp [JackBridge.state, Finalize_isDisposed nc w]

/-- Callbacks and subscriptions leave the three fields of the managed object alone. -/
theorem step_state_of_relay (nc : NativeClient) (w : World) (c : Call)
    (h1 : ∀ o, c ≠ .op o) (h2 : c ≠ .Dispose) (h3 : c ≠ .Finalize) :
    (JackBridge.step nc w c).bridge.state = w.bridge.state := by
  cases c with
  | op o => exact absurd rfl (h1 o)
  | Dispose => exact absurd rfl h2
  | Finalize => exact absurd rfl h3
  | ServerStatusChangedCallback b => rfl
  | MeterUpdateCallback ch d => rfl
  | subscribeServerStatusChanged l => rfl
  | subscribeMeterUpdated l => rfl

theorem thrownBy_eq_some {α : Type} (a : Except NativeThrow α) (t : NativeThrow) :
    thrownBy a = some t ↔ a = .error t := by
  cases a <;> simp [thrownBy]

/-- The guard of the specification is the guard of the code: an operation that does not
pass it fails with one of the two lifecycle errors and leaves the world as it is. -/
theorem exec_of_guard_fails (nc : NativeClient) (w : World) (o : Op)
    (h : o.passesGuard w.bridge = false) :
    (JackBridge.exec nc w o).2 = w
    ∧ ((JackBridge.exec nc w o).1 = .error (.ObjectDisposedException "JackBridge")
      ∨ (JackBridge.exec nc w o).1
          = .error (.InvalidOperationException "JACK client is not initialized")) := by
  by_cases hD : w.bridge._isDisposed = true
  · rw [exec_of_disposed nc w o hD]
    exact ⟨rfl, Or.inl rfl⟩
  · cases o <;>
      simp [Op.passesGuard, hD] at h <;>
      simp [JackBridge.exec, boxed, Except.map, hD, h, notInitializedMessage,
        JackBridge.CreatePorts, JackBridge.Activate, JackBridge.Deactivate,
        JackBridge.SetChannelVolume, JackBridge.SetChannelPan, JackBridge.SetChannelGain,
        JackBridge.SetChannelMute, JackBridge.SetChannelSolo, JackBridge.GetSampleRate,
        JackBridge.GetBufferSize, JackBridge.GetCpuLoad, JackBridge.ConnectPorts,
        JackBridge.DisconnectPorts, JackBridge.GetPortList, JackBridge.GetPorts]

/-- The operation `Initialize` touches only the flag `_isInitialized`. -/
theorem Initialize_fields (nc : NativeClient) (w : World) (clientName : String) :
    (JackBridge.Initialize nc w clientName).2.bridge._isDisposed = w.bridge._isDisposed
    ∧ (JackBridge.Initialize nc w clientName).2.bridge._nativeImpl = w.bridge._nativeImpl := by
  unfold JackBridge.Initialize
  by_cases hD : w.bridge._isDisposed = true
  · simp [hD]
  · by_cases hI : w.bridge._isInitialized = true
    · simp [hD, hI]
    · cases hN : w.bridge._nativeImpl with
      | nullptr => simp [hD, hI, hN]
      | native =>
        cases hr : nc.Initialize w.calls clientName <;> simp [hD, hI, hN, hr, World.issue]

/-- A bridge that is not disposed still owns its native object: the property holds after
a successful construction and is kept by every call. -/
theorem step_owns_native (nc : NativeClient) (w : World) (c : Call)
    (h : w.bridge._isDisposed = false → w.bridge._nativeImpl = .native) :
    (JackBridge.step nc w c).bridge._isDisposed = false →
      (JackBridge.step nc w c).bridge._nativeImpl = .native := by
  cases c with
  | op o =>
    by_cases hi : ∃ n, o = .Initialize n
    · obtain ⟨n, rfl⟩ := hi
      have hf := Initialize_fields nc w n
      simp only [JackBridge.step, JackBridge.exec, boxed]
      rw [hf.1, hf.2]
      exact h
    · have hb := (exec_bridge nc w o (fun n hn => hi ⟨n, hn⟩)).1
      simp only [JackBridge.step]
      rw [hb]
      exact h
  | Dispose =>
    intro hd
    simp [JackBridge.step, JackBridge.Dispose, Finalize_isDisposed] at hd
  | Finalize =>
    intro hd
    simp [JackBridge.step, Finalize_isDisposed] at hd
  | ServerStatusChangedCallback b => exact h
  | MeterUpdateCallback ch d => exact h
  | subscribeServerStatusChanged l => exact h
  | subscribeMeterUpdated l => exact h

theorem run_owns_native (nc : NativeClient) (cs : List Call) (w : World)
    (h : w.bridge._isDisposed = false → w.bridge._nativeImpl = .native) :
    (JackBridge.run nc w cs).bridge._isDisposed = false →
      (JackBridge.run nc w cs).bridge._nativeImpl = .native := by
  induction cs generalizing w with
  | nil => exact h
  | cons c cs ih => exact ih (JackBridge.step nc w c) (step_owns_native nc w c h)

/-- After a construction that did not throw, and any calls, a bridge that is not
disposed has a non-null `_nativeImpl`. -/
theorem ctor_owns_native (nc : NativeClient) (cs : List Call)
    (hc : (JackBridge.ctor nc).1 = .ok ()) :
    (JackBridge.run nc (JackBridge.ctor nc).2 cs).bridge._isDisposed = false →
      (JackBridge.run nc (JackBridge.ctor nc).2 cs).bridge._nativeImpl = .native := by
  apply run_owns_native
  intro _
  revert hc
  unfold JackBridge.ctor
  simp only [World.issue]
  cases nc.construct with
  | error what => simp
  | ok u =>
    dsimp only
    cases nc.SetServerStatusCallback ([] ++ [NativeCall.construct]) with
    | error what => simp
    | ok u1 =>
      dsimp only
      cases nc.SetMeterUpdateCallback ([] ++ [NativeCall.construct] ++ [NativeCall.SetServerStatusCallback]) with
      | error what => simp
      | ok u2 => simp

/-! ## Claims -/

/-- C1. Once teardown (`~JackBridge` or `!JackBridge`) has run, after any prefix of calls
and followed by any further calls, every public operation fails with
`ObjectDisposedException("JackBridge")`, leaves the world as it is, and the native call
log is still the one teardown left: no native call is issued after teardown. -/
theorem C1_disposed_operations_fail_fast (nc : NativeClient) (w : World)
    (before after : List Call) (o : Op) :
    JackBridge.exec nc
        (JackBridge.run nc (JackBridge.Finalize nc (JackBridge.run nc w before)) after) o
      = (.error (.ObjectDisposedException "JackBridge"),
          JackBridge.run nc (JackBridge.Finalize nc (JackBridge.run nc w before)) after)
    ∧ (JackBridge.run nc (JackBridge.Finalize nc (JackBridge.run nc w before)) after).calls
      = (JackBridge.Finalize nc (JackBridge.run nc w before)).calls
    ∧ JackBridge.Dispose nc (JackBridge.run nc w before)
      = JackBridge.Finalize nc (JackBridge.run nc w before) := by
  have hd := Finalize_isDisposed nc (JackBridge.run nc w before)
  have hr := run_of_disposed nc after _ hd
  exact ⟨exec_of_disposed nc _ o hr.1, hr.2, rfl⟩

/-- C2. On a bridge that is neither initialized nor disposed, every public operation
other than `Initialize`, `IsServerRunning` and `GetServerStatus` fails with
`InvalidOperationException("JACK client is not initialized")` and leaves the world,
native call log included, untouched.  `IsServerRunning` and `GetServerStatus` are not
gated: on the owned native object they issue exactly one native call and hand back what
it reports, the boolean itself and the dictionary of the snapshot (a native throw
leaves through the `std::exception` handler, never as the not-initialized error). -/
theorem C2_uninitialized_guard (nc : NativeClient) (w : World)
    (hI : w.bridge._isInitialized = false) (hD : w.bridge._isDisposed = false) :
    (∀ o : Op, (∀ n, o ≠ .Initialize n) → o ≠ .IsServerRunning → o ≠ .GetServerStatus →
        JackBridge.exec nc w o
          = (.error (.InvalidOperationException "JACK client is not initialized"), w))
    ∧ (w.bridge._nativeImpl = .native →
        JackBridge.IsServerRunning nc w
            = (rethrow (nc.IsServerRunning w.calls), w.issue .IsServerRunning)
        ∧ (∀ b, nc.IsServerRunning w.calls = .ok b →
            JackBridge.exec nc w .IsServerRunning = (.ok (.bool b), w.issue .IsServerRunning))
        ∧ JackBridge.GetServerStatus nc w
            = (rethrow ((nc.GetServerStatus w.calls).map statusDictionary),
                w.issue .GetServerStatus)
        ∧ (∀ st, nc.GetServerStatus w.calls = .ok st →
            JackBridge.exec nc w .GetServerStatus
              = (.ok (.dictionary
                  [("IsRunning", .bool st.isRunning), ("SampleRate", .int st.sampleRate),
                   ("BufferSize", .int st.bufferSize), ("CpuLoad", .float st.cpuLoad)]),
                  w.issue .GetServerStatus))) := by
  refine ⟨?_, ?_⟩
  · intro o h1 h2 h3
    cases o <;>
      first
      | exact absurd rfl (h1 _)
      | exact absurd rfl h2
      | exact absurd rfl h3
      | simp [JackBridge.exec, boxed, Except.map, hI, hD, notInitializedMessage,
          JackBridge.CreatePorts, JackBridge.Activate, JackBridge.Deactivate,
          JackBridge.SetChannelVolume, JackBridge.SetChannelPan, JackBridge.SetChannelGain,
          JackBridge.SetChannelMute, JackBridge.SetChannelSolo, JackBridge.GetSampleRate,
          JackBridge.GetBufferSize, JackBridge.GetCpuLoad, JackBridge.ConnectPorts,
          JackBridge.DisconnectPorts, JackBridge.GetPortList, JackBridge.GetPorts]
  · intro hN
    refine ⟨?_, ?_, ?_, ?_⟩
    · simp [JackBridge.IsServerRunning, World.delegate, hD, hN]
    · intro b hb
      simp [JackBridge.exec, boxed, JackBridge.IsServerRunning, World.delegate, hD, hN, hb,
        rethrow, Except.map]
    · simp [JackBridge.GetServerStatus, World.delegate, hD, hN]
    · intro st hst
      simp [JackBridge.exec, boxed, JackBridge.GetServerStatus, World.delegate, hD, hN, hst,
        rethrow, Except.map, statusDictionary]

/-- C2 at a concrete input: the freshly constructed bridge on the healthy fake. -/
theorem C2_uninitialized_guard_witness :
    JackBridge.exec NativeClient.healthy World.fresh (.SetChannelVolume 0 Float32.half)
        = (.error (.InvalidOperationException "JACK client is not initialized"), World.fresh)
    ∧ JackBridge.exec NativeClient.healthy World.fresh .IsServerRunning
        = (.ok (.bool true), World.fresh.issue .IsServerRunning) :=
  have h := C2_uninitialized_guard NativeClient.healthy World.fresh (by decide) (by decide)
  ⟨h.1 _ (by intro n; exact Op.noConfusion) Op.noConfusion Op.noConfusion,
   (h.2 (by decide)).2.1 true rfl⟩

/-- C3. `Initialize` is idempotent.  On an initialized, not disposed bridge, `Initialize`
with any client name returns true and changes nothing (no native call).  Hence, when an
`Initialize` on a not yet initialized bridge returns true, it issued exactly one native
`Initialize`, left the bridge initialized, and a second `Initialize` with any name
returns true and leaves the world, native call log included, exactly as the first left
it. -/
theorem C3_Initialize_idempotent (nc : NativeClient) (w : World) (first second : String) :
    (w.bridge._isInitialized = true → w.bridge._isDisposed = false →
        JackBridge.Initialize nc w second = (.ok true, w))
    ∧ (w.bridge._isInitialized = false →
        (JackBridge.Initialize nc w first).1 = .ok true →
        (JackBridge.Initialize nc w first).2.calls = w.calls ++ [.Initialize first]
        ∧ (JackBridge.Initialize nc w first).2.bridge.state = .Initialized
        ∧ JackBridge.Initialize nc (JackBridge.Initialize nc w first).2 second
            = (.ok true, (JackBridge.Initialize nc w first).2)) := by
  refine ⟨?_, ?_⟩
  · intro hI hD
    simp [JackBridge.Initialize, hI, hD]
  · intro hI h1
    unfold JackBridge.Initialize at h1 ⊢
    by_cases hD : w.bridge._isDisposed = true
    · simp [hD] at h1
    · cases hN : w.bridge._nativeImpl with
      | nullptr => simp [hD, hI, hN] at h1
      | native =>
        cases hr : nc.Initialize w.calls first with
        | error what => simp [hD, hI, hN, hr] at h1
        | ok result =>
          simp [hD, hI, hN, hr] at h1
          subst h1
          simp [hD, hI, hN, hr, World.issue, JackBridge.state]

/-- C3 at a concrete input: two `Initialize` calls on the fresh bridge over the healthy
fake. -/
theorem C3_Initialize_idempotent_witness :
    (JackBridge.Initialize NativeClient.healthy World.fresh "mixer1").2.calls
        = World.fresh.calls ++ [.Initialize "mixer1"]
    ∧ (JackBridge.Initialize NativeClient.healthy World.fresh "mixer1").2.bridge.state
        = .Initialized
    ∧ JackBridge.Initialize NativeClient.healthy
          (JackBridge.Initialize NativeClient.healthy World.fresh "mixer1").2 "other"
        = (.ok true, (JackBridge.Initialize NativeClient.healthy World.fresh "mixer1").2) :=
  (C3_Initialize_idempotent NativeClient.healthy World.fresh "mixer1" "other").2 rfl rfl

/-- C4, evaluated where it fails. On the initialized bridge `World.ready`, over the fake
whose `Deactivate` throws, teardown invoked three times issues the one native `Deactivate`
and no `delete` at all: the native handle is never released, and the stored pointer stays
set.  The later invocations do change nothing, as claimed; with a `Deactivate` that
returns, the same three invocations issue `Deactivate` then `delete`, once each. -/
theorem C4_repeated_teardown_without_release :
    (JackBridge.run NativeClient.deactivateThrows World.ready
        [.Dispose, .Dispose, .Finalize]).calls = World.ready.calls ++ [.Deactivate]
    ∧ (JackBridge.run NativeClient.deactivateThrows World.ready
        [.Dispose, .Dispose, .Finalize]).calls.count .delete = 0
    ∧ (JackBridge.run NativeClient.deactivateThrows World.ready
        [.Dispose, .Dispose, .Finalize]).bridge._nativeImpl = .native
    ∧ JackBridge.run NativeClient.deactivateThrows World.ready [.Dispose, .Dispose, .Finalize]
        = JackBridge.run NativeClient.deactivateThrows World.ready [.Dispose]
    ∧ (JackBridge.run NativeClient.healthy World.ready
        [.Dispose, .Dispose, .Finalize]).calls = World.ready.calls ++ [.Deactivate, .delete] := by
  decide

/-- C5, evaluated where it fails. Teardown of the initialized bridge `World.ready` over
the fake whose `Deactivate` throws returns normally and leaves the bridge disposed, but
the native handle is not released: no `delete` is issued and `_nativeImpl` is still set. -/
theorem C5_teardown_leaks_handle_when_Deactivate_throws :
    (JackBridge.Finalize NativeClient.deactivateThrows World.ready).bridge.state = .Disposed
    ∧ (JackBridge.Finalize NativeClient.deactivateThrows World.ready).bridge._nativeImpl
        = .native
    ∧ NativeCall.delete ∉ (JackBridge.Finalize NativeClient.deactivateThrows World.ready).calls
    ∧ (JackBridge.Finalize NativeClient.deactivateThrows World.ready).calls
        = World.ready.calls ++ [.Deactivate] := by
  decide

/-- C6 fails on the code. After `Initialize` and `CreatePorts(2, 2)` both returned true,
`SetChannelVolume(5, 0.75)` and `SetChannelMute(-1, true)` do not fail: each returns
normally and the out-of-range call is issued to the native object. -/
theorem C6_out_of_range_channel_is_delegated :
    (JackBridge.CreatePorts NativeClient.healthy World.ready 2 2).1 = .ok true
    ∧ JackBridge.SetChannelVolume NativeClient.healthy World.withPorts 5 Float32.threeQuarters
        = (.ok (), World.withPorts.issue (.SetChannelVolume 5 Float32.threeQuarters))
    ∧ JackBridge.SetChannelMute NativeClient.healthy World.withPorts (-1) true
        = (.ok (), World.withPorts.issue (.SetChannelMute (-1) true)) :=
  ⟨rfl, rfl, rfl⟩

/-- C6 as amended. The bridge keeps no channel range: `CreatePorts` leaves the managed
object as it was, and on an initialized, not disposed bridge each of the five setters,
for every channel index whatsoever, issues exactly one native setter call with that
index and value and hands back what the native call does (normal return, or its
exception as the `std::exception` handler leaves it). -/
theorem C6_setters_delegate_every_channel (nc : NativeClient) (w : World)
    (hI : w.bridge._isInitialized = true) (hD : w.bridge._isDisposed = false)
    (hN : w.bridge._nativeImpl = .native)
    (numInputs numOutputs channel : Int) (value : Float32) (flag : Bool) :
    (JackBridge.CreatePorts nc w numInputs numOutputs).2.bridge = w.bridge
    ∧ JackBridge.SetChannelVolume nc w channel value
        = (rethrow (nc.SetChannelVolume w.calls channel value),
            w.issue (.SetChannelVolume channel value))
    ∧ JackBridge.SetChannelPan nc w channel value
        = (rethrow (nc.SetChannelPan w.calls channel value),
            w.issue (.SetChannelPan channel value))
    ∧ JackBridge.SetChannelGain nc w channel value
        = (rethrow (nc.SetChannelGain w.calls channel value),
            w.issue (.SetChannelGain channel value))
    ∧ JackBridge.SetChannelMute nc w channel flag
        = (rethrow (nc.SetChannelMute w.calls channel flag),
            w.issue (.SetChannelMute channel flag))
    ∧ JackBridge.SetChannelSolo nc w channel flag
        = (rethrow (nc.SetChannelSolo w.calls channel flag),
            w.issue (.SetChannelSolo channel flag)) := by
  simp [JackBridge.CreatePorts, JackBridge.SetChannelVolume, JackBridge.SetChannelPan,
    JackBridge.SetChannelGain, JackBridge.SetChannelMute, JackBridge.SetChannelSolo,
    World.delegate, World.issue, hI, hD, hN]

/-- C6 as amended, at a concrete input: channel 5 after `CreatePorts(2, 2)`. -/
theorem C6_setters_delegate_every_channel_witness :
    (JackBridge.CreatePorts NativeClient.healthy World.withPorts 2 2).2.bridge
        = World.withPorts.bridge
    ∧ JackBridge.SetChannelVolume NativeClient.healthy World.withPorts 5 Float32.threeQuarters
        = (rethrow (NativeClient.healthy.SetChannelVolume World.withPorts.calls 5
              Float32.threeQuarters),
            World.withPorts.issue (.SetChannelVolume 5 Float32.threeQuarters)) :=
  have h := C6_setters_delegate_every_channel NativeClient.healthy World.withPorts
    (by decide) (by decide) (by decide) 2 2 5 Float32.threeQuarters true
  ⟨h.1, h.2.1⟩

/-- C7 fails on the code. On the disposed bridge obtained by tearing down
`World.subscribed`, a meter callback and a status callback each invoke the subscribed
listener. -/
theorem C7_callback_after_disposal_is_delivered :
    (JackBridge.Finalize NativeClient.healthy World.subscribed).bridge.state = .Disposed
    ∧ (JackBridge.MeterUpdateCallback (JackBridge.Finalize NativeClient.healthy World.subscribed)
        0 NativeMeterData.sample).delivered
        = [.MeterUpdated 2 0 { Peak := Float32.threeQuarters, Rms := Float32.half }]
    ∧ (JackBridge.ServerStatusChangedCallback
        (JackBridge.Finalize NativeClient.healthy World.subscribed) false).delivered
        = [.ServerStatusChanged 1 false] := by
  decide

/-- C7 as amended. The relay has no disposed check. A status or meter callback arriving
in any world, and in particular in the disposed world any teardown leaves, invokes every
subscribed listener once, in subscription order, with the values of the callback
(`peak` and `rms` copied into a `MeterData`); it changes neither the managed object nor
the native call log. -/
theorem C7_relay_is_unconditional (nc : NativeClient) (w : World) (isRunning : Bool)
    (channel : Int) (data : NativeMeterData) :
    (JackBridge.ServerStatusChangedCallback w isRunning
        = { w with delivered := w.delivered
              ++ w.bridge.ServerStatusChanged.map (fun l => .ServerStatusChanged l isRunning) })
    ∧ (JackBridge.MeterUpdateCallback w channel data
        = { w with delivered := w.delivered
              ++ w.bridge.MeterUpdated.map (fun l => .MeterUpdated l channel ⟨data.peak, data.rms⟩) })
    ∧ (JackBridge.ServerStatusChangedCallback (JackBridge.Finalize nc w) isRunning).delivered
        = w.delivered
            ++ w.bridge.ServerStatusChanged.map (fun l => .ServerStatusChanged l isRunning)
    ∧ (JackBridge.MeterUpdateCallback (JackBridge.Finalize nc w) channel data).delivered
        = w.delivered
            ++ w.bridge.MeterUpdated.map
                (fun l => .MeterUpdated l channel { Peak := data.peak, Rms := data.rms })
    ∧ (JackBridge.MeterUpdateCallback (JackBridge.Finalize nc w) channel data).bridge.state
        = .Disposed := by
  have hl := Finalize_listeners nc w
  have hd := Finalize_isDisposed nc w
  refine ⟨rfl, rfl, ?_, ?_, ?_⟩
  · simp [JackBridge.ServerStatusChangedCallback, JackBridge.OnNativeServerStatusChanged, hl]
  · simp [JackBridge.MeterUpdateCallback, JackBridge.OnNativeMeterUpdated, hl]
  · simp [JackBridge.MeterUpdateCallback, JackBridge.OnNativeMeterUpdated, JackBridge.state, hd]

/-- C9. Lifecycle transitions are monotonic. For every call `c` (public operation,
teardown, native callback, subscription) taken in any world, with `s` the lifecycle state
before and `t` the one after:

* either `t = s`, or `s` is `Uninitialized`, `t` is `Initialized` and `c` is an
  `Initialize` whose native `Initialize` returned true, or `t` is `Disposed`, `s` is not and
  `c` is a teardown;
* from `Disposed` every call leads to `Disposed`;
* an `Initialize` whose native call returns false or throws leaves the state as it was;
* every call that is neither `Initialize` nor a teardown leaves the state as it was;
* teardown always ends in `Disposed`. -/
theorem C9_lifecycle_monotonic (nc : NativeClient) (w : World) (c : Call) :
    ((JackBridge.step nc w c).bridge.state = w.bridge.state
      ∨ (w.bridge.state = .Uninitialized ∧ (JackBridge.step nc w c).bridge.state = .Initialized
          ∧ ∃ clientName, c = .op (.Initialize clientName)
              ∧ nc.Initialize w.calls clientName = .ok true)
      ∨ (w.bridge.state ≠ .Disposed ∧ (JackBridge.step nc w c).bridge.state = .Disposed
          ∧ (c = .Dispose ∨ c = .Finalize)))
    ∧ (w.bridge.state = .Disposed → (JackBridge.step nc w c).bridge.state = .Disposed)
    ∧ (∀ clientName, c = .op (.Initialize clientName) →
        nc.Initialize w.calls clientName ≠ .ok true →
        (JackBridge.step nc w c).bridge.state = w.bridge.state)
    ∧ ((∀ clientName, c ≠ .op (.Initialize clientName)) → c ≠ .Dispose → c ≠ .Finalize →
        (JackBridge.step nc w c).bridge.state = w.bridge.state)
    ∧ (JackBridge.step nc w .Dispose).bridge.state = .Disposed
    ∧ (JackBridge.step nc w .Finalize).bridge.state = .Disposed := by
  have key : (JackBridge.step nc w c).bridge.state = w.bridge.state
      ∨ (w.bridge.state = .Uninitialized ∧ (JackBridge.step nc w c).bridge.state = .Initialized
          ∧ ∃ clientName, c = .op (.Initialize clientName)
              ∧ nc.Initialize w.calls clientName = .ok true)
      ∨ (w.bridge.state ≠ .Disposed ∧ (JackBridge.step nc w c).bridge.state = .Disposed
          ∧ (c = .Dispose ∨ c = .Finalize)) := by
    by_cases hop : ∃ o, c = .op o
    · obtain ⟨o, rfl⟩ := hop
      by_cases hi : ∃ n, o = .Initialize n
      · obtain ⟨n, rfl⟩ := hi
        rcases Initialize_state nc w n with h | ⟨h1, h2, h3⟩
        · left
          simpa [JackBridge.step, JackBridge.exec, boxed] using h
        · right; left
          exact ⟨h1, by simpa [JackBridge.step, JackBridge.exec, boxed] using h2, n, rfl, h3⟩
      · left
        have := (exec_bridge nc w o (fun n hn => hi ⟨n, hn⟩)).1
        simp [JackBridge.step, this]
    · by_cases ht : c = .Dispose ∨ c = .Finalize
      · by_cases hs : w.bridge.state = .Disposed
        · left
          have hD : w.bridge._isDisposed = true := by
            unfold JackBridge.state at hs
            by_contra hD
            by_cases hI : w.bridge._isInitialized = true <;> simp [hD, hI] at hs
          rcases ht with rfl | rfl <;>
            simp [JackBridge.step, JackBridge.Dispose, Finalize_of_disposed nc w hD]
        · right; right
          refine ⟨hs, ?_, ht⟩
          rcases ht with rfl | rfl <;>
            simp [JackBridge.step, JackBridge.Dispose, Finalize_state]
      · left
        exact step_state_of_relay nc w c (fun o ho => hop ⟨o, ho⟩)
          (fun h => ht (Or.inl h)) (fun h => ht (Or.inr h))
  refine ⟨key, ?_, ?_, ?_, ?_, ?_⟩
  · intro hs
    rcases key with h | ⟨h1, _⟩ | ⟨h1, _⟩
    · rw [h, hs]
    · rw [hs] at h1; exact absurd h1 (by decide)
    · exact absurd hs h1
  · intro n hc hne
    rcases key with h | ⟨_, _, m, hm, hok⟩ | ⟨_, _, h3⟩
    · exact h
    · rw [hc] at hm
      injection hm with hm
      injection hm with hm
      subst hm
      exact absurd hok hne
    · rw [hc] at h3
      rcases h3 with h3 | h3 <;> exact Call.noConfusion h3
  · intro h1 h2 h3
    rcases key with h | ⟨_, _, m, hm, _⟩ | ⟨_, _, h4⟩
    · exact h
    · exact absurd hm (h1 m)
    · rcases h4 with h4 | h4
      · exact absurd h4 h2
      · exact absurd h4 h3
  · simp [JackBridge.step, JackBridge.Dispose, Finalize_state]
  · simp [JackBridge.step, Finalize_state]

/-- C9 at concrete inputs: on the fresh bridge, an `Initialize` over the fake whose
native `Initialize` throws, and a `CreatePorts`, both leave the state `Uninitialized`. -/
theorem C9_lifecycle_monotonic_witness :
    (JackBridge.step NativeClient.failing World.fresh (.op (.Initialize "mixer1"))).bridge.state
        = World.fresh.bridge.state
    ∧ (JackBridge.step NativeClient.healthy World.fresh (.op (.CreatePorts 2 2))).bridge.state
        = World.fresh.bridge.state :=
  ⟨(C9_lifecycle_monotonic NativeClient.failing World.fresh (.op (.Initialize "mixer1"))).2.2.1
      "mixer1" rfl (by intro h; exact Except.noConfusion h),
   (C9_lifecycle_monotonic NativeClient.healthy World.fresh (.op (.CreatePorts 2 2))).2.2.2.1
      (by intro n h; injection h with h; exact Op.noConfusion h)
      Call.noConfusion Call.noConfusion⟩

/-- C10 fails on the code. Over the fake whose `Initialize` and `CreatePorts` throw
something that is not a `std::exception`, both operations pass the lifecycle guard and
the native exception escapes them untranslated: the caller is not handed a
`System::Exception`. -/
theorem C10_foreign_native_exception_escapes :
    Op.delegates (.Initialize "mixer1") World.fresh.bridge = true
    ∧ JackBridge.exec NativeClient.throwsForeign World.fresh (.Initialize "mixer1")
        = (.error .UncaughtNative, World.fresh.issue (.Initialize "mixer1"))
    ∧ Op.delegates (.CreatePorts 2 2) World.ready.bridge = true
    ∧ JackBridge.exec NativeClient.throwsForeign World.ready (.CreatePorts 2 2)
        = (.error .UncaughtNative, World.ready.issue (.CreatePorts 2 2)) :=
  ⟨by decide, rfl, by decide, rfl⟩

/-- C10 as amended. Whenever a public operation reaches its native call (it passes the
lifecycle guard, and is not an `Initialize` on an already initialized bridge) and that
native call throws `t`, the one native call is on the log, the managed object, hence the
lifecycle state, is as before, and the operation fails as its only handler,
`catch (const std::exception&)`, dictates: if `t` is a `std::exception` with message `m`
the operation fails with `System::Exception` carrying exactly `m`; if `t` is of another
type it is not caught and escapes untranslated. -/
theorem C10_only_std_exception_is_translated (nc : NativeClient) (w : World) (o : Op)
    (t : NativeThrow) (hG : o.delegates w.bridge = true)
    (hN : w.bridge._nativeImpl = .native) (hT : nc.thrown w.calls o = some t) :
    JackBridge.exec nc w o = (.error t.caught, w.issue o.nativeCall)
    ∧ (∀ m, t = .stdException m →
        JackBridge.exec nc w o = (.error (.Exception m), w.issue o.nativeCall))
    ∧ (t = .other → JackBridge.exec nc w o = (.error .UncaughtNative, w.issue o.nativeCall))
    ∧ (JackBridge.exec nc w o).2.bridge = w.bridge
    ∧ (JackBridge.exec nc w o).2.bridge.state = w.bridge.state := by
  have main : JackBridge.exec nc w o = (.error t.caught, w.issue o.nativeCall) := by
    cases o <;>
      simp only [Op.delegates, Op.passesGuard, Bool.and_eq_true, Bool.not_eq_true',
        Bool.and_true] at hG <;>
      simp only [NativeClient.thrown, thrownBy_eq_some] at hT <;>
      simp [JackBridge.exec, boxed, Except.map, rethrow, World.delegate, Op.nativeCall, hG, hN,
        hT, JackBridge.Initialize, JackBridge.CreatePorts,
        JackBridge.Activate, JackBridge.Deactivate, JackBridge.SetChannelVolume,
        JackBridge.SetChannelPan, JackBridge.SetChannelGain, JackBridge.SetChannelMute,
        JackBridge.SetChannelSolo, JackBridge.GetSampleRate, JackBridge.GetBufferSize,
        JackBridge.GetCpuLoad, JackBridge.IsServerRunning, JackBridge.GetServerStatus,
        JackBridge.ConnectPorts, JackBridge.DisconnectPorts, JackBridge.GetPortList,
        JackBridge.GetPorts]
  refine ⟨main, ?_, ?_, ?_, ?_⟩
  · intro m hm
    rw [main, hm]
    rfl
  · intro ht
    rw [main, ht]
    rfl
  · rw [main]
    rfl
  · rw [main]
    rfl

/-- C10 as amended, at concrete inputs: `Initialize` on the fresh bridge over the fake
every method of which throws `std::exception("boom")`, and `CreatePorts` on the ready
bridge over the fake that throws something else. -/
theorem C10_only_std_exception_is_translated_witness :
    JackBridge.exec NativeClient.failing World.fresh (.Initialize "mixer1")
        = (.error (.Exception "boom"), World.fresh.issue (.Initialize "mixer1"))
    ∧ JackBridge.exec NativeClient.throwsForeign World.ready (.CreatePorts 2 2)
        = (.error .UncaughtNative, World.ready.issue (.CreatePorts 2 2))
    ∧ (JackBridge.exec NativeClient.throwsForeign World.ready (.CreatePorts 2 2)).2.bridge.state
        = World.ready.bridge.state :=
  ⟨(C10_only_std_exception_is_translated NativeClient.failing World.fresh
      (.Initialize "mixer1") (.stdException "boom") (by decide) (by decide) rfl).2.1 "boom" rfl,
   (C10_only_std_exception_is_translated NativeClient.throwsForeign World.ready
      (.CreatePorts 2 2) .other (by decide) (by decide) rfl).2.2.1 rfl,
   (C10_only_std_exception_is_translated NativeClient.throwsForeign World.ready
      (.CreatePorts 2 2) .other (by decide) (by decide) rfl).2.2.2.2⟩

/-- C11. On an initialized, not disposed bridge, for every source and destination port
name: `ConnectPorts` passes the two names on unchanged, issues exactly one native
`ConnectPorts` call and, whatever boolean that call reports for the pair, returns exactly
that boolean; a reported false is returned as the value false, not raised as an error.
`DisconnectPorts` does the same with the native `DisconnectPorts`.  Each operation
depends on its own native method only, and neither changes the managed object. -/
theorem C11_port_connection_result_is_returned (nc : NativeClient) (w : World)
    (sourcePort destPort : String)
    (hI : w.bridge._isInitialized = true) (hD : w.bridge._isDisposed = false)
    (hN : w.bridge._nativeImpl = .native) :
    (∀ connected, nc.ConnectPorts w.calls sourcePort destPort = .ok connected →
        JackBridge.ConnectPorts nc w sourcePort destPort
            = (.ok connected, w.issue (.ConnectPorts sourcePort destPort))
        ∧ JackBridge.exec nc w (.ConnectPorts sourcePort destPort)
            = (.ok (.bool connected), w.issue (.ConnectPorts sourcePort destPort)))
    ∧ (∀ disconnected, nc.DisconnectPorts w.calls sourcePort destPort = .ok disconnected →
        JackBridge.DisconnectPorts nc w sourcePort destPort
            = (.ok disconnected, w.issue (.DisconnectPorts sourcePort destPort))
        ∧ JackBridge.exec nc w (.DisconnectPorts sourcePort destPort)
            = (.ok (.bool disconnected), w.issue (.DisconnectPorts sourcePort destPort)))
    ∧ JackBridge.ConnectPorts nc w sourcePort destPort
        = (rethrow (nc.ConnectPorts w.calls sourcePort destPort),
            w.issue (.ConnectPorts sourcePort destPort))
    ∧ JackBridge.DisconnectPorts nc w sourcePort destPort
        = (rethrow (nc.DisconnectPorts w.calls sourcePort destPort),
            w.issue (.DisconnectPorts sourcePort destPort))
    ∧ (JackBridge.ConnectPorts nc w sourcePort destPort).2.bridge = w.bridge
    ∧ (JackBridge.DisconnectPorts nc w sourcePort destPort).2.bridge = w.bridge := by
  refine ⟨?_, ?_, ?_, ?_, ?_, ?_⟩
  · intro connected hC
    simp [JackBridge.exec, boxed, Except.map, JackBridge.ConnectPorts, World.delegate,
      rethrow, hI, hD, hN, hC]
  · intro disconnected hX
    simp [JackBridge.exec, boxed, Except.map, JackBridge.DisconnectPorts, World.delegate,
      rethrow, hI, hD, hN, hX]
  · simp [JackBridge.ConnectPorts, World.delegate, hI, hD, hN]
  · simp [JackBridge.DisconnectPorts, World.delegate, hI, hD, hN]
  · simp [JackBridge.ConnectPorts, World.delegate, World.issue, hI, hD, hN]
  · simp [JackBridge.DisconnectPorts, World.delegate, World.issue, hI, hD, hN]

/-- C11 at concrete inputs: the scenario of the specification.  `ConnectPorts` returns the
rejection false also when the native `DisconnectPorts` would throw, and `DisconnectPorts`
returns the refusal false also when the native `ConnectPorts` would throw. -/
theorem C11_port_connection_result_is_returned_witness :
    JackBridge.ConnectPorts NativeClient.rejectsConnectThrowsDisconnect World.withPorts
          "mixer1:in_1" "mixer1:out_1"
        = (.ok false, World.withPorts.issue (.ConnectPorts "mixer1:in_1" "mixer1:out_1"))
    ∧ JackBridge.DisconnectPorts NativeClient.throwsConnectRejectsDisconnect World.withPorts
          "mixer1:in_1" "mixer1:out_1"
        = (.ok false, World.withPorts.issue (.DisconnectPorts "mixer1:in_1" "mixer1:out_1"))
    ∧ JackBridge.ConnectPorts NativeClient.healthy World.withPorts "mixer1:in_1" "mixer1:out_1"
        = (.ok true, World.withPorts.issue (.ConnectPorts "mixer1:in_1" "mixer1:out_1")) :=
  ⟨((C11_port_connection_result_is_returned NativeClient.rejectsConnectThrowsDisconnect
        World.withPorts "mixer1:in_1" "mixer1:out_1" (by decide) (by decide) (by decide)).1
      false rfl).1,
   ((C11_port_connection_result_is_returned NativeClient.throwsConnectRejectsDisconnect
        World.withPorts "mixer1:in_1" "mixer1:out_1" (by decide) (by decide) (by decide)).2.1
      false rfl).1,
   ((C11_port_connection_result_is_returned NativeClient.healthy
        World.withPorts "mixer1:in_1" "mixer1:out_1" (by decide) (by decide) (by decide)).1
      true rfl).1⟩

/-- C12. Setter round trip. On an initialized, not disposed bridge, for every channel
and value, each of `SetChannelVolume`, `SetChannelPan`, `SetChannelGain`,
`SetChannelMute` and `SetChannelSolo` appends exactly one native call to the log, the
setter of the same name with the same channel and the unmodified value, so what a
recording fake holds for that channel afterwards is exactly that value; what it holds
for any other channel is what it held before. -/
theorem C12_setter_round_trip (nc : NativeClient) (w : World) (channel : Int)
    (value : Float32) (flag : Bool)
    (hI : w.bridge._isInitialized = true) (hD : w.bridge._isDisposed = false)
    (hN : w.bridge._nativeImpl = .native) :
    ((JackBridge.SetChannelVolume nc w channel value).2.calls
          = w.calls ++ [.SetChannelVolume channel value]
      ∧ storedVolume (JackBridge.SetChannelVolume nc w channel value).2.calls channel
          = some value
      ∧ ∀ other, other ≠ channel →
          storedVolume (JackBridge.SetChannelVolume nc w channel value).2.calls other
            = storedVolume w.calls other)
    ∧ ((JackBridge.SetChannelPan nc w channel value).2.calls
          = w.calls ++ [.SetChannelPan channel value]
      ∧ storedPan (JackBridge.SetChannelPan nc w channel value).2.calls channel = some value
      ∧ ∀ other, other ≠ channel →
          storedPan (JackBridge.SetChannelPan nc w channel value).2.calls other
            = storedPan w.calls other)
    ∧ ((JackBridge.SetChannelGain nc w channel value).2.calls
          = w.calls ++ [.SetChannelGain channel value]
      ∧ storedGain (JackBridge.SetChannelGain nc w channel value).2.calls channel = some value
      ∧ ∀ other, other ≠ channel →
          storedGain (JackBridge.SetChannelGain nc w channel value).2.calls other
            = storedGain w.calls other)
    ∧ ((JackBridge.SetChannelMute nc w channel flag).2.calls
          = w.calls ++ [.SetChannelMute channel flag]
      ∧ storedMute (JackBridge.SetChannelMute nc w channel flag).2.calls channel = some flag
      ∧ ∀ other, other ≠ channel →
          storedMute (JackBridge.SetChannelMute nc w channel flag).2.calls other
            = storedMute w.calls other)
    ∧ ((JackBridge.SetChannelSolo nc w channel flag).2.calls
          = w.calls ++ [.SetChannelSolo channel flag]
      ∧ storedSolo (JackBridge.SetChannelSolo nc w channel flag).2.calls channel = some flag
      ∧ ∀ other, other ≠ channel →
          storedSolo (JackBridge.SetChannelSolo nc w channel flag).2.calls other
            = storedSolo w.calls other) := by
  refine ⟨⟨?_, ?_, ?_⟩, ⟨?_, ?_, ?_⟩, ⟨?_, ?_, ?_⟩, ⟨?_, ?_, ?_⟩, ⟨?_, ?_, ?_⟩⟩
  all_goals
    first
    | (intro other hne
       have hne2 : ¬ channel = other := fun h => hne h.symm
       simp [JackBridge.SetChannelVolume, JackBridge.SetChannelPan, JackBridge.SetChannelGain,
         JackBridge.SetChannelMute, JackBridge.SetChannelSolo, World.delegate, World.issue,
         storedVolume, storedPan, storedGain, storedMute, storedSolo, List.foldl_append,
         hI, hD, hN, hne2])
    | simp [JackBridge.SetChannelVolume, JackBridge.SetChannelPan, JackBridge.SetChannelGain,
        JackBridge.SetChannelMute, JackBridge.SetChannelSolo, World.delegate, World.issue,
        storedVolume, storedPan, storedGain, storedMute, storedSolo, List.foldl_append,
        hI, hD, hN]

/-- C12 at a concrete input: `SetChannelVolume(2, 0.75)` after `CreatePorts(2, 2)` over
the healthy fake reads back `0.75`, and channel 0 still holds nothing. -/
theorem C12_setter_round_trip_witness :
    (JackBridge.SetChannelVolume NativeClient.healthy World.withPorts 2
        Float32.threeQuarters).2.calls
        = World.withPorts.calls ++ [.SetChannelVolume 2 Float32.threeQuarters]
    ∧ storedVolume (JackBridge.SetChannelVolume NativeClient.healthy World.withPorts 2
        Float32.threeQuarters).2.calls 2 = some Float32.threeQuarters
    ∧ storedVolume (JackBridge.SetChannelVolume NativeClient.healthy World.withPorts 2
        Float32.threeQuarters).2.calls 0 = storedVolume World.withPorts.calls 0 :=
  have h := (C12_setter_round_trip NativeClient.healthy World.withPorts 2
    Float32.threeQuarters true (by decide) (by decide) (by decide)).1
  ⟨h.1, h.2.1, h.2.2 0 (by decide)⟩

end MaiksMixer
